import Mathlib

/-!
Verification of the Schema Detection & Reconciliation Engine of the
cs_data_processor repository.

The Python sources (chat_processor.py, case_processor.py, cs_dashboard_app.py,
rating_processor.py, utils.py) are shallowly embedded: pandas DataFrames become
lists of rows (association lists from column names to cells), pandas cell
values become the inductive type `Cell`, float scores become rationals, and
each source function becomes a Lean function of the same name.  Calls into the
pandas library (`pd.to_datetime`, `pd.to_numeric`, `astype(str)`, `pd.concat`)
are modelled per cell by executable Lean functions.
-/

namespace CS

/-! ## Python string primitives

`str.lower`, `str.strip` and the substring operator `in`, as the source uses
them on ASCII column headers, modelled on the character lists underlying
`String`. -/

/-- ASCII lower-casing of one character, the effect of Python `str.lower` on
the header alphabets used by the source. -/
def charLower (c : Char) : Char :=
  if 'A' ≤ c ∧ c ≤ 'Z' then Char.ofNat (c.toNat + 32) else c

/-- Python `s.lower()`. -/
def pyLower (s : String) : String := String.mk (s.data.map charLower)

/-- The whitespace characters Python `str.strip` removes. -/
def isPySpace (c : Char) : Bool :=
  c = ' ' ∨ c = '\t' ∨ c = '\n' ∨ c = '\r'

/-- Python `s.strip()`. -/
def pyStrip (s : String) : String :=
  String.mk (((s.data.dropWhile isPySpace).reverse.dropWhile isPySpace).reverse)

/-- Does the character list `n` occur at the start of `h`? -/
def startsWithSeq : List Char → List Char → Bool
  | [], _ => true
  | _ :: _, [] => false
  | a :: as, b :: bs => a = b && startsWithSeq as bs

/-- Does the character list `n` occur contiguously inside `h`? -/
def containsSeq (n : List Char) : List Char → Bool
  | [] => n.isEmpty
  | b :: bs => startsWithSeq n (b :: bs) || containsSeq n bs

/-- Python `needle in hay` on strings: contiguous substring containment. -/
def pyIn (needle hay : String) : Bool := containsSeq needle.data hay.data

/-! ## Cells, rows and DataFrames -/

/-- One pandas cell value as the pipeline sees it: missing (`NaN`/`None`/
`NaT`), a number, a string, or a datetime.  A datetime is carried as a
rational day count in the proleptic Gregorian calendar (day 0 = 0000-03-01 of
the civil-day algorithm below); fractions of a day carry the time component. -/
inductive Cell where
  | null : Cell
  | num : ℚ → Cell
  | str : String → Cell
  | dt : ℚ → Cell
deriving DecidableEq, Repr

/-- One DataFrame row: an association list from column name to cell. -/
abbrev Row := List (String × Cell)

/-- A DataFrame: the ordered column names plus the rows.  A column absent
from a row reads as `NaN`, as after a `pd.concat` of frames with different
columns. -/
structure DF where
  headers : List String
  rows : List Row
deriving DecidableEq, Repr

/-- Read one cell of a row; a missing key is a `NaN` cell. -/
def getCell (r : Row) (k : String) : Cell := (List.lookup k r).getD Cell.null

/-- Overwrite the value under `k`, or append the pair when `k` is new
(a pandas column assignment on one row). -/
def setField (r : Row) (k : String) (v : Cell) : Row :=
  if r.any (fun p => p.1 = k) then
    r.map (fun p => if p.1 = k then (k, v) else p)
  else r ++ [(k, v)]

/-- `df[k] = df.apply(f, axis=1)`: assign column `k` of every row from a
per-row function, keeping the column order and appending `k` when new. -/
def setCol (df : DF) (k : String) (f : Row → Cell) : DF :=
  { headers := if df.headers.contains k then df.headers else df.headers ++ [k]
    rows := df.rows.map (fun r => setField r k (f r)) }

/-- `df[k] = df[k].apply(g)`: rewrite every cell of one existing column. -/
def mapCol (df : DF) (k : String) (g : Cell → Cell) : DF :=
  setCol df k (fun r => g (getCell r k))

/-- Does any row hold a non-null cell in column `k`
(`df[k].notna().any()`)? -/
def colNotnaAny (df : DF) (k : String) : Bool :=
  df.rows.any (fun r => getCell r k ≠ Cell.null)

/-- Order-preserving union of column-name lists, the column order
`pd.concat(..., sort=False)` produces. -/
def unionHeaders (hss : List (List String)) : List String :=
  hss.foldl (fun acc hs => acc ++ hs.filter (fun h => ¬ acc.contains h)) []

/-- `pd.concat(dfs, ignore_index=True, sort=False)`: rows in submission
order, columns in order of first appearance. -/
def concatDF (dfs : List DF) : DF :=
  { headers := unionHeaders (dfs.map DF.headers)
    rows := (dfs.map DF.rows).flatten }

/-- `df = df[order]` after every name of `order` exists: project each row
onto exactly the canonical columns, in canonical order. -/
def selectCols (df : DF) (order : List String) : DF :=
  { headers := order
    rows := df.rows.map (fun r => order.map (fun k => (k, getCell r k))) }

/-! ## Civil-calendar arithmetic

Executable day-count conversions for the proleptic Gregorian calendar
(the standard era/year-of-era algorithm), used to model Python `datetime`
and the Excel serial-day epoch 1899-12-30. -/

/-- Gregorian leap year. -/
def isLeapYear (y : Nat) : Bool := y % 4 = 0 ∧ (y % 100 ≠ 0 ∨ y % 400 = 0)

/-- Days in a month of a given year. -/
def daysInMonth (y m : Nat) : Nat :=
  if m = 2 then (if isLeapYear y then 29 else 28)
  else if m = 4 ∨ m = 6 ∨ m = 9 ∨ m = 11 then 30
  else 31

/-- Is `y-m-d` a real calendar date (with a positive year)? -/
def validDate (y m d : Nat) : Bool :=
  1 ≤ y ∧ 1 ≤ m ∧ m ≤ 12 ∧ 1 ≤ d ∧ d ≤ daysInMonth y m

/-- The day number of the civil date `y-m-d` (day 0 = 0000-03-01), for
dates with `y ≥ 1`. -/
def daysFromCivil (y m d : Nat) : Nat :=
  let y' := if m ≤ 2 then y - 1 else y
  let era := y' / 400
  let yoe := y' % 400
  let mp := (m + 9) % 12
  let doy := (153 * mp + 2) / 5 + d - 1
  let doe := yoe * 365 + yoe / 4 - yoe / 100 + doy
  era * 146097 + doe

/-- The civil date `(y, m, d)` of a day number, inverse of
`daysFromCivil` on valid dates. -/
def civilFromDays (z : Nat) : Nat × Nat × Nat :=
  let era := z / 146097
  let doe := z % 146097
  let yoe := ((doe - doe / 1460) + doe / 36524 - doe / 146096) / 365
  let y := yoe + era * 400
  let doy := doe - (yoe * 365 + yoe / 4 - yoe / 100)
  let mp := (5 * doy + 2) / 153
  let d := doy - (153 * mp + 2) / 5 + 1
  let m := if mp < 10 then mp + 3 else mp - 9
  (if m ≤ 2 then y + 1 else y, m, d)

/-- The Excel serial-date epoch used by `excel_to_datetime`:
the day number of 1899-12-30. -/
def excelEpochDay : Nat := daysFromCivil 1899 12 30

/-- English month names, for `strftime('%B %Y')`. -/
def monthName (m : Nat) : String :=
  ["January", "February", "March", "April", "May", "June", "July",
   "August", "September", "October", "November", "December"].getD (m - 1) ""

/-- English weekday name of a day number, for `strftime('%A')`
(day number 719468 = 1970-01-01, a Thursday). -/
def weekdayName (z : Nat) : String :=
  ["Wednesday", "Thursday", "Friday", "Saturday", "Sunday", "Monday",
   "Tuesday"].getD (z % 7) ""

/-- ISO weekday (Monday = 1 … Sunday = 7) of a day number. -/
def isoWeekday (z : Nat) : Nat := [3, 4, 5, 6, 7, 1, 2].getD (z % 7) 0

/-- Number of ISO weeks (52 or 53) in a year. -/
def isoWeeksInYear (y : Nat) : Nat :=
  let p := fun yy => (yy + yy / 4 - yy / 100 + yy / 400) % 7
  if p y = 4 ∨ p (y - 1) = 3 then 53 else 52

/-- ISO-8601 week number of a day number, for
`dt.isocalendar().week`. -/
def isoWeekOfDay (z : Nat) : Nat :=
  let y := (civilFromDays z).1
  let doy := z - daysFromCivil y 1 1 + 1
  let w := (10 + doy - isoWeekday z) / 7
  if w = 0 then isoWeeksInYear (y - 1)
  else if isoWeeksInYear y < w then 1 else w

/-- The whole-day part of a datetime value. -/
def dayPart (q : ℚ) : Nat := (⌊q⌋).toNat

/-- The hour of day (0…23) of a datetime value, for `dt.hour`. -/
def hourOfDt (q : ℚ) : Nat := (⌊q * 24⌋).toNat % 24

/-- `strftime('%I %p').lstrip('0')`: an hour rendered on the 12-hour
clock, e.g. `"9 AM"`, `"12 PM"`. -/
def hour12 (h : Nat) : String :=
  toString ((h + 11) % 12 + 1) ++ (if h < 12 then " AM" else " PM")

/-- The `"<start 12h> - <end 12h>"` hour-range string both processors
derive from the primary date column. -/
def hourRange (h : Nat) : String := hour12 h ++ " - " ++ hour12 ((h + 1) % 24)

/-! ## Date parsing and the value coercers -/

/-- Parse a non-empty all-digit character list. -/
def digitsToNat? (cs : List Char) : Option Nat :=
  if cs.isEmpty then none
  else if cs.all (fun c => '0' ≤ c ∧ c ≤ '9') then
    some (cs.foldl (fun n c => n * 10 + (c.toNat - 48)) 0)
  else none

/-- Split a character list on a separator character. -/
def splitOnSep (sep : Char) : List Char → List (List Char)
  | [] => [[]]
  | c :: rest =>
    let r := splitOnSep sep rest
    if c = sep then [] :: r
    else match r with
      | [] => [[c]]
      | g :: gs => (c :: g) :: gs

/-- Read `"a/b/c"` as three numbers. -/
def parseSlashTriple (s : String) : Option (Nat × Nat × Nat) :=
  match splitOnSep '/' s.data with
  | [a, b, c] => do
    let x ← digitsToNat? a
    let y ← digitsToNat? b
    let z ← digitsToNat? c
    pure (x, y, z)
  | _ => none

/-- `pd.to_datetime(s, format='%d/%m/%Y', errors='raise')`: strict
day-first parse, failing on calendar-invalid dates. -/
def parseDayFirst (s : String) : Option ℚ :=
  match parseSlashTriple s with
  | some (d, m, y) =>
      if validDate y m d then some ((daysFromCivil y m d : Nat) : ℚ) else none
  | none => none

/-- `pd.to_datetime(s, format='%m/%d/%Y', errors='raise')`: strict
month-first parse. -/
def parseMonthFirst (s : String) : Option ℚ :=
  match parseSlashTriple s with
  | some (m, d, y) =>
      if validDate y m d then some ((daysFromCivil y m d : Nat) : ℚ) else none
  | none => none

/-- An ISO `YYYY-MM-DD` date, part of the permissive-parser model. -/
def parseISODate (s : String) : Option ℚ :=
  match splitOnSep '-' s.data with
  | [a, b, c] => do
    let y ← digitsToNat? a
    let m ← digitsToNat? b
    let d ← digitsToNat? c
    if validDate y m d then pure ((daysFromCivil y m d : Nat) : ℚ) else none
  | _ => none

/-- Model of the `pd.to_datetime(s, dayfirst=True, errors='coerce')` library
parser: day-first, then month-first, then ISO. -/
def pdParseDayfirst (s : String) : Option ℚ :=
  (parseDayFirst s).orElse fun _ =>
    (parseMonthFirst s).orElse fun _ => parseISODate s

/-- Model of the default `pd.to_datetime(s, errors='coerce')` library parser:
month-first, then day-first, then ISO. -/
def pdParseMonthfirst (s : String) : Option ℚ :=
  (parseMonthFirst s).orElse fun _ =>
    (parseDayFirst s).orElse fun _ => parseISODate s

/-- utils.excel_to_datetime (utils.py lines 6-28).  `pd.isna` values give
`None`; a number is an Excel day-count serial added to the 1899-12-30 epoch;
a string is tried strictly day-first, then strictly month-first, then handed
to the permissive pandas parser (whose library internals are the parameter
`permissive`), whose failure yields `NaT`; anything else is returned
unchanged. -/
def excel_to_datetime (permissive : String → Option ℚ) : Cell → Cell
  | Cell.null => Cell.null
  | Cell.num q => Cell.dt ((excelEpochDay : Nat) + q)
  | Cell.str s =>
      match parseDayFirst s with
      | some z => Cell.dt z
      | none =>
        match parseMonthFirst s with
        | some z => Cell.dt z
        | none =>
          match permissive s with
          | some z => Cell.dt z
          | none => Cell.null
  | Cell.dt z => Cell.dt z

/-- The per-cell effect of the two-step date-column conversion used by both
processors (chat_processor.py lines 277-285, case_processor.py lines 185-191):
`excel_to_datetime` applied to numeric cells, then `pd.to_datetime(col, ...,
errors='coerce')` with string parser `parse` over the column. -/
def dateColumnCell (parse : String → Option ℚ) : Cell → Cell
  | Cell.null => Cell.null
  | Cell.num q => Cell.dt ((excelEpochDay : Nat) + q)
  | Cell.dt z => Cell.dt z
  | Cell.str s =>
      match parse s with
      | some z => Cell.dt z
      | none => Cell.null

/-- Python `str(x)` / pandas `astype(str)` on one cell: a missing value
renders as the literal text `"nan"`, strings are unchanged, numbers and
datetimes render to decimal text. -/
def pyStr : Cell → String
  | Cell.null => "nan"
  | Cell.str s => s
  | Cell.num q => toString q
  | Cell.dt z => toString z

/-- `Series.replace(['nan', 'NaT', 'None'], '')` on one stringified cell:
exactly the three placeholder tokens collapse to the empty string. -/
def replaceNullTokens (s : String) : String :=
  if s = "nan" ∨ s = "NaT" ∨ s = "None" then "" else s

/-- `Series.apply(lambda x: None if x == '' else x)` on one cell. -/
def emptyToNone (s : String) : Cell :=
  if s = "" then Cell.null else Cell.str s

/-- The text coercer of case_processor.py lines 147-169: `astype(str)`, then
the placeholder replacement, then the empty-string-to-`None` pass (the
`Created By` branch and the generic branch perform the same three steps). -/
def textCoerceCell (c : Cell) : Cell :=
  emptyToNone (replaceNullTokens (pyStr c))

/-- Model of Python float syntax for `pd.to_numeric`: optional sign, digits
with an optional fractional part, surrounding whitespace ignored. -/
def parseFloat? (s : String) : Option ℚ :=
  let core := (pyStrip s).data
  let signAndDigits : ℚ × List Char :=
    match core with
    | '-' :: rest => (-1, rest)
    | '+' :: rest => (1, rest)
    | rest => (1, rest)
  let sign := signAndDigits.1
  let ds := signAndDigits.2
  match splitOnSep '.' ds with
  | [ip] => (digitsToNat? ip).map (fun n => sign * (n : ℚ))
  | [ip, fp] =>
      if ip.isEmpty then
        (digitsToNat? fp).map (fun f => sign * (f : ℚ) / (10 ^ fp.length))
      else if fp.isEmpty then
        (digitsToNat? ip).map (fun n => sign * (n : ℚ))
      else do
        let n ← digitsToNat? ip
        let f ← digitsToNat? fp
        pure (sign * ((n : ℚ) + (f : ℚ) / (10 ^ fp.length)))
  | _ => none

/-- `pd.to_numeric(col, errors='coerce')` on one cell: numbers stay, numeric
text parses, everything else becomes `NaN`. -/
def toNumericCell : Cell → Cell
  | Cell.num q => Cell.num q
  | Cell.str s =>
      match parseFloat? s with
      | some q => Cell.num q
      | none => Cell.null
  | _ => Cell.null

/-- utils.create_date_columns (utils.py lines 164-182): re-coerce the date
column (`excel_to_datetime` then `pd.to_datetime(errors='coerce')`), then
derive Month, Week, Day and the Hours range from it; `strftime` on a missing
date gives a missing cell. -/
def create_date_columns (df : DF) (dateCol : String) : DF :=
  if df.headers.contains dateCol then
    let df1 := mapCol df dateCol (excel_to_datetime pdParseDayfirst)
    let derive := fun (f : ℚ → Cell) (r : Row) =>
      match getCell r dateCol with
      | Cell.dt z => f z
      | _ => Cell.null
    let df2 := setCol df1 "Month" (derive fun z =>
      Cell.str (monthName (civilFromDays (dayPart z)).2.1 ++ " " ++
        toString (civilFromDays (dayPart z)).1))
    let df3 := setCol df2 "Week" (derive fun z => Cell.num (isoWeekOfDay (dayPart z)))
    let df4 := setCol df3 "Day" (derive fun z => Cell.str (weekdayName (dayPart z)))
    setCol df4 "Hours" (derive fun z => Cell.str (hourRange (hourOfDt z)))
  else df

/-! ## Type classification -/

/-- One record-type signature of the `detection_rules` dictionaries. -/
structure DetectionRule where
  name : String
  required : List String
  strong_indicators : List String
  channel_indicators : List String
  min_confidence : ℚ
deriving DecidableEq, Repr

/-- The `line_chat` signature (chat_processor.py lines 9-14 and
cs_dashboard_app.py lines 61-66). -/
def line_chat_rule : DetectionRule :=
  ⟨"line_chat", ["chat transcript id", "social account: name"],
   ["started by", "open chat unique id", "ready to assign (line)"],
   ["line"], 0.7⟩

/-- The `wechat_chat` signature (chat_processor.py lines 15-20). -/
def wechat_chat_rule : DetectionRule :=
  ⟨"wechat_chat", ["wechat agent", "follower name"],
   ["agent assigned time", "agent first response time (seconds)"],
   ["wechat"], 0.7⟩

/-- The `live_chat` signature (chat_processor.py lines 21-26). -/
def live_chat_rule : DetectionRule :=
  ⟨"live_chat", ["chat key", "agent", "start time"],
   ["visitor ip address", "browser language", "chat origin url"],
   ["sf", "live"], 0.6⟩

/-- The `messaging` signature (chat_processor.py lines 27-32). -/
def messaging_rule : DetectionRule :=
  ⟨"messaging", ["messaging session name", "session owner: full name"],
   ["messaging user: contact: full name", "messaging channel: channel name",
    "accept time"],
   ["messaging", "session"], 0.7⟩

/-- The `case_data` signature (case_processor.py lines 9-14 and
cs_dashboard_app.py lines 79-84). -/
def case_data_rule : DetectionRule :=
  ⟨"case_data", ["case number", "case owner"],
   ["case reason", "case status", "case: created date/time"],
   ["case"], 0.8⟩

/-- The `chat_rating` signature (cs_dashboard_app.py lines 85-90). -/
def chat_rating_rule : DetectionRule :=
  ⟨"chat_rating", ["rating", "chatkey"],
   ["post-chat rating", "getfeedback"],
   ["chat"], 0.7⟩

/-- The `case_rating` signature (cs_dashboard_app.py lines 91-96). -/
def case_rating_rule : DetectionRule :=
  ⟨"case_rating", ["rating", "case"],
   ["feedback created date", "outcome"],
   ["case"], 0.7⟩

/-- The `detection_rules` of chat_processor.detect_chat_data_type
(chat_processor.py lines 8-33), in declaration order. -/
def chat_detection_rules : List DetectionRule :=
  [line_chat_rule, wechat_chat_rule, live_chat_rule, messaging_rule]

/-- The single rule of case_processor.detect_case_data_type
(case_processor.py lines 8-15). -/
def case_detection_rules : List DetectionRule := [case_data_rule]

/-- The `detection_rules` of cs_dashboard_app.detect_data_type
(cs_dashboard_app.py lines 60-97), in declaration order. -/
def dashboard_detection_rules : List DetectionRule :=
  [line_chat_rule, wechat_chat_rule, live_chat_rule, case_data_rule,
   chat_rating_rule, case_rating_rule]

/-- `[col.lower().strip() for col in df.columns]`. -/
def normalizedColumns (headers : List String) : List String :=
  headers.map (fun col => pyStrip (pyLower col))

/-- `any(fragment in col for col in columns)`. -/
def anyColContains (cols : List String) (frag : String) : Bool :=
  cols.any (fun col => pyIn frag col)

/-- One iteration of the classifier's candidate loop (chat_processor.py lines
37-71 and its two duplicates): the confidence the code stores in
`results[data_type]['confidence']`, for already-normalized columns and an
already-lowercased filename. -/
def ruleConfidence (rule : DetectionRule) (cols : List String)
    (filenameLower : String) : ℚ :=
  let required_matches : Nat := rule.required.foldl
    (fun n req => if anyColContains cols req then n + 1 else n) 0
  if required_matches = 0 then 0
  else
    let base := (required_matches : ℚ) / (rule.required.length : ℚ) * 0.6
    let strong_matches : Nat := rule.strong_indicators.foldl
      (fun n ind => if anyColContains cols ind then n + 1 else n) 0
    let conf1 := base + (strong_matches : ℚ) / (rule.strong_indicators.length : ℚ) * 0.3
    let conf2 := if rule.channel_indicators.any
        (fun ch => pyIn ch filenameLower || anyColContains cols ch)
      then conf1 + 0.1 else conf1
    min conf2 1

/-- `max(results.keys(), key=lambda x: results[x]['confidence'])`: Python's
`max` keeps the first maximal candidate in dictionary (declaration) order. -/
def bestRule (r0 : DetectionRule) (rest : List DetectionRule)
    (cols : List String) (fl : String) : DetectionRule :=
  rest.foldl
    (fun acc r =>
      if ruleConfidence acc cols fl < ruleConfidence r cols fl then r else acc)
    r0

/-- The classifier's selection step (chat_processor.py lines 73-79 and its
duplicates): normalize the headers, score every candidate, pick the first
best, and fall back to `"unknown"` when the winner misses its own floor.
The source never runs this on an empty rule table; on `[]` we answer
`"unknown"`. -/
def detectFromRules (rules : List DetectionRule) (headers : List String)
    (filename : String) : String :=
  let cols := normalizedColumns headers
  let fl := pyLower filename
  match rules with
  | [] => "unknown"
  | r0 :: rest =>
    let best := bestRule r0 rest cols fl
    if ruleConfidence best cols fl < best.min_confidence then "unknown"
    else best.name

/-- chat_processor.detect_chat_data_type, restricted to the returned type
name (the accompanying `results` dictionary is `ruleConfidence`). -/
def detect_chat_data_type (headers : List String) (filename : String) : String :=
  detectFromRules chat_detection_rules headers filename

/-- case_processor.detect_case_data_type, restricted to the returned type
name. -/
def detect_case_data_type (headers : List String) (filename : String) : String :=
  detectFromRules case_detection_rules headers filename

/-- cs_dashboard_app.detect_data_type, restricted to the returned type
name. -/
def detect_data_type (headers : List String) (filename : String) : String :=
  detectFromRules dashboard_detection_rules headers filename

/-! ## Column mapping -/

/-- The `mapping_patterns` of chat_processor.smart_chat_column_mapping
(chat_processor.py lines 89-147), in declaration order. -/
def mapping_patterns : List (String × List String) :=
  [("Agent", ["owner: full name", "wechat agent: agent nickname",
    "session owner: full name", "agent", "owner name", "agent name"]),
   ("Chat Key", ["chat key", "number", "chat transcript id",
    "messaging session name", "id"]),
   ("Contact Name", ["contact name: full name", "follower name",
    "messaging user: contact: full name", "contact name"]),
   ("Start Time", ["actual start time", "start time", "request time",
    "created date", "chat start time"]),
   ("End Time", ["actual end time", "end time"]),
   ("Accept Time", ["accept date", "accept time"]),
   ("Owner Dept", ["owner dept", "team", "agent dept", "department"]),
   ("Actual Chat Duration (min)", ["actual chat duration (min)",
    "actual duration (min)", "duration (minutes)", "aht"]),
   ("Request Date", ["request date", "request time"]),
   ("Close Date", ["close date", "closed date", "end date"])]

/-- The `next(...)` search of chat_processor.py lines 153-156: the first
column whose lowercased trimmed name contains the pattern as a substring. -/
def findMatchingColumn (headers : List String) (pattern : String) : Option String :=
  headers.find? (fun col => pyIn pattern (pyStrip (pyLower col)))

/-- Resolve one canonical field: patterns are tried in declared order and the
first one with a matching column wins (the `break` of line 160). -/
def resolveField (headers : List String) (patterns : List String) : Option String :=
  patterns.findSome? (findMatchingColumn headers)

/-- The `channel_map` constant of chat_processor.py lines 163-168. -/
def channel_map : List (String × String) :=
  [("live_chat", "SF"), ("line_chat", "LINE"), ("wechat_chat", "WeChat"),
   ("messaging", "Messaging")]

/-- The mapping-construction loop of chat_processor.py lines 150-160: one
`column_mapping` entry, in declaration order, for every canonical field whose
pattern list resolved. -/
def buildMapping (headers : List String) (pats : List (String × List String)) :
    List (String × String) :=
  pats.foldl
    (fun acc tp =>
      match resolveField headers tp.2 with
      | some col => acc ++ [(tp.1, col)]
      | none => acc) []

/-- chat_processor.smart_chat_column_mapping: the `column_mapping` dictionary
in insertion order — one entry per canonical field that resolved, then the
per-type constant `Channel`. -/
def smart_chat_column_mapping (headers : List String) (data_type : String) :
    List (String × String) :=
  let base := buildMapping headers mapping_patterns
  match List.lookup data_type channel_map with
  | some ch => base ++ [("Channel", ch)]
  | none => base

/-- The `mapping_patterns` of cs_dashboard_app.smart_column_mapping
(cs_dashboard_app.py lines 179-205). -/
def dashboard_mapping_patterns : List (String × List String) :=
  [("Agent", ["Owner: Full Name", "owner: full name",
    "WeChat Agent: Agent Nickname", "wechat agent: agent nickname",
    "Agent", "agent", "Owner Name", "owner name", "Agent Name", "agent name"]),
   ("Chat Key", ["Chat Key", "chat key", "Number", "number",
    "Chat Transcript ID", "chat transcript id", "ID", "id"]),
   ("Contact Name", ["Contact Name: Full Name", "contact name: full name",
    "Follower Name", "follower name", "Contact Name", "contact name",
    "Customer Name", "customer name"]),
   ("Start Time", ["Start Time", "start time", "Request Time", "request time",
    "Created Date", "created date", "Chat Start Time", "chat start time"])]

/-- The per-pattern search of cs_dashboard_app.py lines 209-220: exact match
first, then case-insensitive equality; the first matching pattern wins. -/
def resolveFieldExact (headers : List String) (patterns : List String) :
    Option String :=
  patterns.findSome? (fun p =>
    if headers.contains p then some p
    else headers.find? (fun col => pyLower col = pyLower p))

/-- cs_dashboard_app.smart_column_mapping: resolved fields in declaration
order, then the per-type constant `Channel` (lines 222-229; no `messaging`
entry in this copy). -/
def smart_column_mapping (headers : List String) (data_type : String) :
    List (String × String) :=
  let base := dashboard_mapping_patterns.foldl
    (fun acc tp =>
      match resolveFieldExact headers tp.2 with
      | some col => acc ++ [(tp.1, col)]
      | none => acc) []
  if data_type = "live_chat" then base ++ [("Channel", "SF")]
  else if data_type = "line_chat" then base ++ [("Channel", "LINE")]
  else if data_type = "wechat_chat" then base ++ [("Channel", "WeChat")]
  else base

/-! ## The chat master-table pipeline (chat_processor.process_chat_files) -/

/-- One element of the `file_data_list` argument: the loaded sheet and its
classified record type. -/
structure FileInfo where
  data : DF
  detected_type : String
deriving DecidableEq, Repr

/-- The record types process_chat_files accepts (line 184). -/
def chatTypes : List String := ["live_chat", "line_chat", "wechat_chat", "messaging"]

/-- `required_columns` of chat_processor.py lines 247-251. -/
def chat_required_columns : List String :=
  ["Agent", "Chat Key", "Channel", "Start Time", "Contact Name",
   "Chat Transcript Name", "Status", "Chat Reason", "End Time",
   "Chat Duration (sec)", "Wait Time", "Post-Chat Rating", "Accept Time"]

/-- `numerical_columns` of chat_processor.py lines 258-263. -/
def chat_numerical_columns : List String :=
  ["Wait Time", "Chat Duration (sec)", "Agent Average Response Time",
   "Agent Message Count", "Visitor Message Count", "Post-Chat Rating",
   "Agent First Response Time (Seconds)", "Agent Avg Response Time",
   "Duration (Minutes)", "Actual Chat Duration (min)"]

/-- `master_chat_columns_order` of chat_processor.py lines 346-363. -/
def master_chat_columns_order : List String :=
  ["Agent", "Chat Key", "Chat Transcript Name", "Status", "Chat Reason",
   "Contact Name", "Start Time", "End Time", "Chat Duration (sec)",
   "Wait Time", "Post-Chat Rating", "Chat Start Time", "Ended By",
   "Type", "Detail", "Time", "Regulation", "Location",
   "Visitor IP Address", "Chat Origin URL", "Agent Message Count",
   "Visitor Message Count", "Agent Average Response Time",
   "Billing Country", "Browser Language", "Created Date",
   "Owner Dept", "Agent handling", "Agent Dept", "Day", "Week",
   "Hours", "Month", "Actual Start Time", "Actual End Time",
   "Actual Chat Duration (sec)", "Actual Chat Duration (min)",
   "Channel", "Start Time2", "End Time3", "Social Account: Name",
   "Ready To Assign (LINE)", "Started By", "Open Chat Unique ID",
   "Last Modified By: Full Name", "Last Modified Date", "Week ",
   "Agent Assigned Time", "Created By: Full Name",
   "Agent First Response Time (Seconds)", "Closed", "Agent Avg Response Time",
   "Accept Time", "Request Date", "Close Date"]

/-- One iteration of the mapping-application loop (lines 197-216): copy the
source column when it exists, else inject the per-type channel constant. -/
def applyMappingEntry (df : DF) (e : String × String) : DF :=
  if df.headers.contains e.2 then
    setCol df e.1 (fun r => getCell r e.2)
  else if e.2 = "SF" ∨ e.2 = "LINE" ∨ e.2 = "WeChat" ∨ e.2 = "Messaging" then
    setCol df e.1 (fun _ => Cell.str e.2)
  else df

/-- Python `x * 60` on one cell of the messaging `Duration (Minutes)` column
(line 234): numbers scale, missing stays missing, a string repeats (the
Python `str * int` semantics), a datetime — which pandas would reject — is
modelled as missing. -/
def cellTimes60 : Cell → Cell
  | Cell.num q => Cell.num (q * 60)
  | Cell.null => Cell.null
  | Cell.str s => Cell.str (String.join (List.replicate 60 s))
  | Cell.dt _ => Cell.null

/-- Lines 193-285 of process_chat_files: apply the column mapping, the
per-type field nulling, ensure the required columns, clean the numerical
columns, and convert the date columns day-first. -/
def transformChatCore (detected_type : String) (df : DF) : DF :=
  let mapping := smart_chat_column_mapping df.headers detected_type
  let t := mapping.foldl applyMappingEntry df
  let t :=
    if detected_type = "messaging" then
      let t1 :=
        if t.headers.contains "Duration (Minutes)" then
          setCol t "Chat Duration (sec)"
            (fun r => cellTimes60 (getCell r "Duration (Minutes)"))
        else t
      setCol t1 "Wait Time" (fun _ => Cell.null)
    else
      let t1 := setCol t "Request Date" (fun _ => Cell.null)
      setCol t1 "Close Date" (fun _ => Cell.null)
  let t := chat_required_columns.foldl
    (fun t col =>
      if t.headers.contains col then t else setCol t col (fun _ => Cell.null)) t
  let t := chat_numerical_columns.foldl
    (fun t col =>
      if t.headers.contains col then mapCol t col toNumericCell else t) t
  let dateCols := (t.headers.filter (fun col =>
      pyIn "time" (pyLower col) || pyIn "date" (pyLower col))).filter
      (fun col => ¬ chat_numerical_columns.contains col)
  dateCols.foldl (fun t col => mapCol t col (dateColumnCell pdParseDayfirst)) t

/-- The primary-date-column preference of chat_processor.py lines 288-294:
Start Time, then Actual Start Time, then Created Date — each only when
present with at least one non-null value. -/
def chatPrimaryDateCol (t : DF) : Option String :=
  if t.headers.contains "Start Time" ∧ colNotnaAny t "Start Time" then
    some "Start Time"
  else if t.headers.contains "Actual Start Time" ∧
      colNotnaAny t "Actual Start Time" then some "Actual Start Time"
  else if t.headers.contains "Created Date" ∧
      colNotnaAny t "Created Date" then some "Created Date"
  else none

/-- The per-file transformation of process_chat_files (chat_processor.py
lines 193-297): the core steps, then the date-component derivation from the
primary date column when one exists. -/
def transformChatFile (detected_type : String) (df : DF) : DF :=
  let t := transformChatCore detected_type df
  match chatPrimaryDateCol t with
  | some col => create_date_columns t col
  | none => t

/-- The diagnostic line printed when the concatenated row count disagrees
with the accumulated source row count. -/
def rowMismatchMsg : String := "ERROR: row count mismatch detected"

/-- The diagnostic line printed when the row counts agree. -/
def rowMatchMsg : String := "SUCCESS: Row counts match exactly!"

/-- The tail of process_chat_files (chat_processor.py lines 309-380): `None`
for an empty batch, otherwise concatenate, compare the total source row count
with the concatenated row count — printing a success or error diagnostic,
modelled as the returned message list — then add the missing canonical
columns, reorder, and return the master table.  The comparison influences
only the diagnostics. -/
def build_master_chat (all_chat_data : List DF) (total_source_rows : Nat) :
    List String × Option DF :=
  match all_chat_data with
  | [] => ([], none)
  | _ =>
    let master := concatDF all_chat_data
    let final_rows := master.rows.length
    let msgs :=
      if final_rows = total_source_rows then [rowMatchMsg] else [rowMismatchMsg]
    let master := master_chat_columns_order.foldl
      (fun m col =>
        if m.headers.contains col then m else setCol m col (fun _ => Cell.null))
      master
    (msgs, some (selectCols master master_chat_columns_order))

/-- chat_processor.process_chat_files: filter to the chat record types,
transform each file, accumulate the source row counts, and build the master
table.  The first component models the row-count diagnostics the source
prints. -/
def process_chat_files (files : List FileInfo) : List String × Option DF :=
  let qualifying := files.filter (fun f => chatTypes.contains f.detected_type)
  let all_chat_data := qualifying.map (fun f => transformChatFile f.detected_type f.data)
  let total_source_rows := (qualifying.map (fun f => f.data.rows.length)).sum
  build_master_chat all_chat_data total_source_rows

/-! ## The case master-table pipeline (case_processor.process_case_files) -/

/-- `actual_date_columns` of case_processor.py lines 99-101. -/
def case_actual_date_columns : List String :=
  ["Case: Created Date/Time", "Created Date", "First Response"]

/-- `numerical_columns` of case_processor.py lines 103-107. -/
def case_numerical_columns : List String :=
  ["First Response Time (min)", "First Response Time (hours)",
   "Days Since Last Response Time Stamp", "Days Since Last Client Response",
   "Age"]

/-- `text_columns` of case_processor.py lines 110-117. -/
def case_text_columns : List String :=
  ["First Response Time Met", "Working hours (Y/N)", "First contact resolution",
   "Premium Client Qualified", "Case Status", "Case: Closed",
   "Created By", "Case Creator", "Case Owner", "Account Name",
   "Case Subject", "Case Reason", "Closed Reason", "Source Email",
   "To Email", "Case Record Type", "Case Origin", "Case Creator: Alias",
   "Case Owner Profile", "Owner Dept"]

/-- `cases_main_columns_order` of case_processor.py lines 311-322. -/
def cases_main_columns_order : List String :=
  ["Account Billing Country", "Case Number", "Case Reason", "Case Owner",
   "Account Name", "Case Subject", "Premium Client Qualified", "Created By",
   "Case Creator", "Age", "Closed Reason", "Source Email", "To Email",
   "Case Record Type", "Case: Created Date/Time", "First Response",
   "Days Since Last Response Time Stamp", "Days Since Last Client Response",
   "Case Origin", "Case Creator: Alias", "Case Owner Profile", "Case: Closed",
   "First contact resolution", "Created Date", "Case Status", "Owner Dept",
   "Age group", "Month", "Week", "Day", "Hours only", "Hours Range",
   "Working hours (Y/N)", "First Response Time (min)",
   "First Response Time (hours)", "First Response Time Met",
   "case_created_date"]

/-- `.dt.date` on one cell: keep the whole-day part of a datetime. -/
def cellDateOnly : Cell → Cell
  | Cell.dt z => Cell.dt ((dayPart z : Nat) : ℚ)
  | _ => Cell.null

/-- Lines 94-207 of process_case_files: stringify Case Number, clean the
numerical columns, run the text coercer over the text columns (the special
`Created By` branch performs the same three steps as the generic branch),
convert the date columns with the default month-first parser, and derive
`case_created_date`. -/
def transformCaseCore (df : DF) : DF :=
  let t :=
    if df.headers.contains "Case Number" then
      mapCol df "Case Number" (fun c => Cell.str (pyStr c))
    else df
  let t := case_numerical_columns.foldl
    (fun t col =>
      if t.headers.contains col then mapCol t col toNumericCell else t) t
  let t := case_text_columns.foldl
    (fun t col =>
      if t.headers.contains col then mapCol t col textCoerceCell else t) t
  let t := case_actual_date_columns.foldl
    (fun t col =>
      if t.headers.contains col then
        mapCol t col (dateColumnCell pdParseMonthfirst)
      else t) t
  if t.headers.contains "Case: Created Date/Time" then
    setCol t "case_created_date"
      (fun r => cellDateOnly (getCell r "Case: Created Date/Time"))
  else if t.headers.contains "Created Date" then
    setCol t "case_created_date" (fun r => cellDateOnly (getCell r "Created Date"))
  else t

/-- The primary-date-column preference of case_processor.py lines 210-214. -/
def casePrimaryDateCol (t : DF) : Option String :=
  if t.headers.contains "Case: Created Date/Time" ∧
      colNotnaAny t "Case: Created Date/Time" then some "Case: Created Date/Time"
  else if t.headers.contains "Created Date" ∧ colNotnaAny t "Created Date" then
    some "Created Date"
  else none

/-- The date-component derivation of case_processor.py lines 216-227. -/
def caseDeriveDateParts (t : DF) (col : String) : DF :=
  let derive := fun (f : ℚ → Cell) (r : Row) =>
    match getCell r col with
    | Cell.dt z => f z
    | _ => Cell.null
  let t1 := setCol t "Month" (derive fun z =>
    Cell.str (monthName (civilFromDays (dayPart z)).2.1 ++ " " ++
      toString (civilFromDays (dayPart z)).1))
  let t2 := setCol t1 "Week" (derive fun z => Cell.num (isoWeekOfDay (dayPart z)))
  let t3 := setCol t2 "Day" (derive fun z => Cell.str (weekdayName (dayPart z)))
  let t4 := setCol t3 "Hours only" (derive fun z => Cell.num (hourOfDt z))
  setCol t4 "Hours Range" (derive fun z => Cell.str (hourRange (hourOfDt z)))

/-- The per-file transformation of process_case_files, assembled from the
stages above, ending with the re-clean of the numerical columns (lines
230-233). -/
def transformCaseFile (df : DF) : DF :=
  let t := transformCaseCore df
  let t :=
    match casePrimaryDateCol t with
    | some col => caseDeriveDateParts t col
    | none => t
  case_numerical_columns.foldl
    (fun t col =>
      if t.headers.contains col then mapCol t col toNumericCell else t) t

/-- The tail of process_case_files (case_processor.py lines 258-383): `None`
for an empty batch, otherwise concatenate, compare the row counts (again only
a diagnostic), add the missing canonical columns, reorder, and return. -/
def build_master_case (all_case_data : List DF) (total_source_rows : Nat) :
    List String × Option DF :=
  match all_case_data with
  | [] => ([], none)
  | _ =>
    let combined := concatDF all_case_data
    let final_rows := combined.rows.length
    let msgs :=
      if final_rows = total_source_rows then [rowMatchMsg] else [rowMismatchMsg]
    let combined := cases_main_columns_order.foldl
      (fun m col =>
        if m.headers.contains col then m else setCol m col (fun _ => Cell.null))
      combined
    (msgs, some (selectCols combined cases_main_columns_order))

/-- case_processor.process_case_files: filter to `case_data`, transform each
file, accumulate source row counts, and build the combined master table. -/
def process_case_files (files : List FileInfo) : List String × Option DF :=
  let qualifying := files.filter (fun f => f.detected_type = "case_data")
  let all_case_data := qualifying.map (fun f => transformCaseFile f.data)
  let total_source_rows := (qualifying.map (fun f => f.data.rows.length)).sum
  build_master_case all_case_data total_source_rows

/-! ## WeChat ratings (rating_processor.process_wechat_ratings) -/

/-- `Series.map({'Positive': 5, 'Negative': 1})` on one Outcome cell:
values outside the dictionary — missing ones included — map to `NaN`. -/
def outcomeToRatingCell (c : Cell) : Cell :=
  if c = Cell.str "Positive" then Cell.num 5
  else if c = Cell.str "Negative" then Cell.num 1
  else Cell.null

/-- One output row of process_wechat_ratings (rating_processor.py lines
78-99), fields in assignment order; `df.get` of an absent column reads as
missing. -/
def wechatRatingRow (r : Row) : Row :=
  [("Feedback Created Date", getCell r "Created Date"),
   ("Owner Name", getCell r "WeChat Agent: Agent Nickname"),
   ("Outcome", getCell r "Outcome"),
   ("Rating", outcomeToRatingCell (getCell r "Outcome")),
   ("Account: Billing Country", Cell.null),
   ("chat_case_number", getCell r "WeChat Transcript: Number"),
   ("chat_case_id", getCell r "Survey Taken Number"),
   ("Language", Cell.null),
   ("Reason", Cell.null),
   ("Month", getCell r "Month"),
   ("Week ", getCell r "Week "),
   ("Day", getCell r "Day"),
   ("Team", Cell.null),
   ("PositivePctHelper", getCell r "PositivePctHelper"),
   ("Source", Cell.str "WeChat")]

/-- rating_processor.process_wechat_ratings: build the master-rating frame
column by column from the WeChat rating sheet. -/
def process_wechat_ratings (df : DF) : DF :=
  { headers := ["Feedback Created Date", "Owner Name", "Outcome", "Rating",
      "Account: Billing Country", "chat_case_number", "chat_case_id",
      "Language", "Reason", "Month", "Week ", "Day", "Team",
      "PositivePctHelper", "Source"]
    rows := df.rows.map wechatRatingRow }

/-! ## Row-conservation lemmas -/

theorem setCol_rows_length (df : DF) (k : String) (f : Row → Cell) :
    (setCol df k f).rows.length = df.rows.length := by
  simp [setCol]

theorem mapCol_rows_length (df : DF) (k : String) (g : Cell → Cell) :
    (mapCol df k g).rows.length = df.rows.length := by
  simp [mapCol, setCol]

/-- A fold whose step preserves the row count preserves the row count. -/
theorem foldl_rows_length {α : Type} (step : DF → α → DF) (l : List α) (df : DF)
    (h : ∀ d x, (step d x).rows.length = d.rows.length) :
    (l.foldl step df).rows.length = df.rows.length := by
  induction l generalizing df with
  | nil => rfl
  | cons a as ih => rw [List.foldl_cons, ih (step df a), h]

theorem create_date_columns_rows_length (df : DF) (c : String) :
    (create_date_columns df c).rows.length = df.rows.length := by
  unfold create_date_columns
  split
  · simp [setCol, mapCol]
  · rfl

theorem applyMappingEntry_rows_length (df : DF) (e : String × String) :
    (applyMappingEntry df e).rows.length = df.rows.length := by
  unfold applyMappingEntry
  split
  · exact setCol_rows_length ..
  · split
    · exact setCol_rows_length ..
    · rfl

theorem transformChatCore_rows_length (ty : String) (df : DF) :
    (transformChatCore ty df).rows.length = df.rows.length := by
  have hdate : ∀ (d : DF) (x : String),
      (mapCol d x (dateColumnCell pdParseDayfirst)).rows.length = d.rows.length :=
    fun d x => mapCol_rows_length ..
  have hnum : ∀ (d : DF) (x : String),
      ((if d.headers.contains x then mapCol d x toNumericCell else d)).rows.length
        = d.rows.length := by
    intro d x
    split
    · exact mapCol_rows_length ..
    · rfl
  have hreq : ∀ (d : DF) (x : String),
      ((if d.headers.contains x then d else setCol d x (fun _ => Cell.null))).rows.length
        = d.rows.length := by
    intro d x
    split
    · rfl
    · exact setCol_rows_length ..
  unfold transformChatCore
  dsimp only
  rw [foldl_rows_length _ _ _ hdate, foldl_rows_length _ _ _ hnum,
    foldl_rows_length _ _ _ hreq]
  split
  · split
    · rw [setCol_rows_length, setCol_rows_length,
        foldl_rows_length _ _ _ applyMappingEntry_rows_length]
    · rw [setCol_rows_length, foldl_rows_length _ _ _ applyMappingEntry_rows_length]
  · rw [setCol_rows_length, setCol_rows_length,
      foldl_rows_length _ _ _ applyMappingEntry_rows_length]

theorem transformChatFile_rows_length (ty : String) (df : DF) :
    (transformChatFile ty df).rows.length = df.rows.length := by
  unfold transformChatFile
  dsimp only
  split
  · rw [create_date_columns_rows_length, transformChatCore_rows_length]
  · exact transformChatCore_rows_length ..

theorem caseCreatedDate_rows_length (t : DF) :
    ((if t.headers.contains "Case: Created Date/Time" then
        setCol t "case_created_date"
          (fun r => cellDateOnly (getCell r "Case: Created Date/Time"))
      else if t.headers.contains "Created Date" then
        setCol t "case_created_date" (fun r => cellDateOnly (getCell r "Created Date"))
      else t)).rows.length = t.rows.length := by
  split
  · exact setCol_rows_length ..
  · split
    · exact setCol_rows_length ..
    · rfl

theorem transformCaseCore_rows_length (df : DF) :
    (transformCaseCore df).rows.length = df.rows.length := by
  have hnum : ∀ (d : DF) (x : String),
      ((if d.headers.contains x then mapCol d x toNumericCell else d)).rows.length
        = d.rows.length := by
    intro d x
    split
    · exact mapCol_rows_length ..
    · rfl
  have htext : ∀ (d : DF) (x : String),
      ((if d.headers.contains x then mapCol d x textCoerceCell else d)).rows.length
        = d.rows.length := by
    intro d x
    split
    · exact mapCol_rows_length ..
    · rfl
  have hdate : ∀ (d : DF) (x : String),
      ((if d.headers.contains x then mapCol d x (dateColumnCell pdParseMonthfirst)
          else d)).rows.length = d.rows.length := by
    intro d x
    split
    · exact mapCol_rows_length ..
    · rfl
  unfold transformCaseCore
  dsimp only
  rw [caseCreatedDate_rows_length, foldl_rows_length _ _ _ hdate,
    foldl_rows_length _ _ _ htext, foldl_rows_length _ _ _ hnum]
  split
  · exact mapCol_rows_length ..
  · rfl

theorem caseDeriveDateParts_rows_length (t : DF) (col : String) :
    (caseDeriveDateParts t col).rows.length = t.rows.length := by
  simp [caseDeriveDateParts, setCol]

theorem transformCaseFile_rows_length (df : DF) :
    (transformCaseFile df).rows.length = df.rows.length := by
  have hnum : ∀ (d : DF) (x : String),
      ((if d.headers.contains x then mapCol d x toNumericCell else d)).rows.length
        = d.rows.length := by
    intro d x
    split
    · exact mapCol_rows_length ..
    · rfl
  unfold transformCaseFile
  dsimp only
  rw [foldl_rows_length _ _ _ hnum]
  split
  · rw [caseDeriveDateParts_rows_length, transformCaseCore_rows_length]
  · exact transformCaseCore_rows_length ..

theorem concatDF_rows_length (dfs : List DF) :
    (concatDF dfs).rows.length = (dfs.map (fun d => d.rows.length)).sum := by
  simp only [concatDF, List.length_flatten, List.map_map]
  rfl

theorem selectCols_rows_length (df : DF) (order : List String) :
    (selectCols df order).rows.length = df.rows.length := by
  simp [selectCols]

/-- The add-missing-canonical-columns fold preserves the row count. -/
theorem ensureCols_rows_length (order : List String) (df : DF) :
    (order.foldl (fun m col =>
        if m.headers.contains col then m else setCol m col (fun _ => Cell.null))
      df).rows.length = df.rows.length := by
  apply foldl_rows_length
  intro d x
  split
  · rfl
  · exact setCol_rows_length ..

/-- A chat master table handed back by the build step has exactly the rows of
the concatenated inputs. -/
theorem build_master_chat_rows (tables : List DF) (n : Nat) (m : DF)
    (h : (build_master_chat tables n).2 = some m) :
    m.rows.length = (tables.map (fun t => t.rows.length)).sum := by
  cases tables with
  | nil => simp [build_master_chat] at h
  | cons t ts =>
    simp only [build_master_chat, Option.some.injEq] at h
    rw [← h, selectCols_rows_length, ensureCols_rows_length, concatDF_rows_length]

theorem build_master_case_rows (tables : List DF) (n : Nat) (m : DF)
    (h : (build_master_case tables n).2 = some m) :
    m.rows.length = (tables.map (fun t => t.rows.length)).sum := by
  cases tables with
  | nil => simp [build_master_case] at h
  | cons t ts =>
    simp only [build_master_case, Option.some.injEq] at h
    rw [← h, selectCols_rows_length, ensureCols_rows_length, concatDF_rows_length]

/-- A nonempty batch always yields a master table from the chat build step,
whatever the claimed source row count. -/
theorem build_master_chat_isSome (tables : List DF) (n : Nat) (h : tables ≠ []) :
    (build_master_chat tables n).2.isSome = true := by
  cases tables with
  | nil => exact absurd rfl h
  | cons t ts => simp [build_master_chat]

theorem build_master_case_isSome (tables : List DF) (n : Nat) (h : tables ≠ []) :
    (build_master_case tables n).2.isSome = true := by
  cases tables with
  | nil => exact absurd rfl h
  | cons t ts => simp [build_master_case]

/-- A detected row-count mismatch in the chat build step only produces the
error diagnostic. -/
theorem build_master_chat_mismatch_msg (tables : List DF) (n : Nat)
    (h : tables ≠ []) (hm : (concatDF tables).rows.length ≠ n) :
    (build_master_chat tables n).1 = [rowMismatchMsg] := by
  cases tables with
  | nil => exact absurd rfl h
  | cons t ts =>
    simp only [build_master_chat]
    rw [if_neg hm]

theorem build_master_case_mismatch_msg (tables : List DF) (n : Nat)
    (h : tables ≠ []) (hm : (concatDF tables).rows.length ≠ n) :
    (build_master_case tables n).1 = [rowMismatchMsg] := by
  cases tables with
  | nil => exact absurd rfl h
  | cons t ts =>
    simp only [build_master_case]
    rw [if_neg hm]

/-- With a consistent row count the build step never emits the mismatch
diagnostic. -/
theorem build_master_chat_no_mismatch_msg (tables : List DF) (n : Nat)
    (h : (concatDF tables).rows.length = n) :
    rowMismatchMsg ∉ (build_master_chat tables n).1 := by
  cases tables with
  | nil => simp [build_master_chat]
  | cons t ts =>
    simp only [build_master_chat]
    rw [h, if_pos rfl]
    simp [rowMismatchMsg, rowMatchMsg]

theorem build_master_case_no_mismatch_msg (tables : List DF) (n : Nat)
    (h : (concatDF tables).rows.length = n) :
    rowMismatchMsg ∉ (build_master_case tables n).1 := by
  cases tables with
  | nil => simp [build_master_case]
  | cons t ts =>
    simp only [build_master_case]
    rw [h, if_pos rfl]
    simp [rowMismatchMsg, rowMatchMsg]

/-- Inside process_chat_files the concatenated row count always equals the
accumulated source row count. -/
theorem sum_map_transform_rows (l : List FileInfo) (g : FileInfo → DF)
    (h : ∀ f, (g f).rows.length = f.data.rows.length) :
    ((l.map g).map (fun t => t.rows.length)).sum =
      (l.map (fun f => f.data.rows.length)).sum := by
  induction l with
  | nil => rfl
  | cons a as ih => simp only [List.map_cons, List.sum_cons, h, ih]

theorem chat_concat_consistent (files : List FileInfo) :
    (concatDF ((files.filter (fun f => chatTypes.contains f.detected_type)).map
        (fun f => transformChatFile f.detected_type f.data))).rows.length =
      ((files.filter (fun f => chatTypes.contains f.detected_type)).map
        (fun f => f.data.rows.length)).sum := by
  rw [concatDF_rows_length]
  exact sum_map_transform_rows _ _ (fun f => transformChatFile_rows_length ..)

theorem case_concat_consistent (files : List FileInfo) :
    (concatDF ((files.filter (fun f => f.detected_type = "case_data")).map
        (fun f => transformCaseFile f.data))).rows.length =
      ((files.filter (fun f => f.detected_type = "case_data")).map
        (fun f => f.data.rows.length)).sum := by
  rw [concatDF_rows_length]
  exact sum_map_transform_rows _ _ (fun f => transformCaseFile_rows_length ..)

theorem process_chat_files_rows (files : List FileInfo) (m : DF)
    (h : (process_chat_files files).2 = some m) :
    m.rows.length = ((files.filter (fun f => chatTypes.contains f.detected_type)).map
      (fun f => f.data.rows.length)).sum := by
  unfold process_chat_files at h
  dsimp only at h
  rw [build_master_chat_rows _ _ _ h]
  exact sum_map_transform_rows _ _ (fun f => transformChatFile_rows_length ..)

theorem process_case_files_rows (files : List FileInfo) (m : DF)
    (h : (process_case_files files).2 = some m) :
    m.rows.length = ((files.filter (fun f => f.detected_type = "case_data")).map
      (fun f => f.data.rows.length)).sum := by
  unfold process_case_files at h
  dsimp only at h
  rw [build_master_case_rows _ _ _ h]
  exact sum_map_transform_rows _ _ (fun f => transformCaseFile_rows_length ..)

theorem process_chat_files_no_mismatch (files : List FileInfo) :
    rowMismatchMsg ∉ (process_chat_files files).1 := by
  unfold process_chat_files
  dsimp only
  exact build_master_chat_no_mismatch_msg _ _ (chat_concat_consistent files)

theorem process_case_files_no_mismatch (files : List FileInfo) :
    rowMismatchMsg ∉ (process_case_files files).1 := by
  unfold process_case_files
  dsimp only
  exact build_master_case_no_mismatch_msg _ _ (case_concat_consistent files)

/-- **C1, counterexample.**  A batch on which the master-table build detects a
row-count mismatch (one transformed table of one row against a claimed total
of two source rows): the build reports the mismatch only in its printed
diagnostics and still hands the caller the full master table, contradicting
the claim that such a batch fails with a hard error and returns no table. -/
theorem C1_counterexample_mismatch_table_still_returned :
    (build_master_chat [⟨["Agent"], [[("Agent", Cell.str "A")]]⟩] 2).1 =
        [rowMismatchMsg] ∧
      (build_master_chat [⟨["Agent"], [[("Agent", Cell.str "A")]]⟩] 2).2.isSome =
        true :=
  ⟨rfl, rfl⟩

/-- **C1 (amended).**  When the master-table build of either processor
detects a row-count mismatch, it reports the mismatch only as a printed
diagnostic and still returns the complete concatenated MasterTable to the
caller; processing of the batch never fails.  Moreover, inside the full
pipelines the mismatch diagnostic is never emitted, because row conservation
holds. -/
theorem C1_row_mismatch_is_diagnostic_only :
    (∀ (tables : List DF) (n : Nat), tables ≠ [] →
      (build_master_chat tables n).2.isSome = true ∧
        ((concatDF tables).rows.length ≠ n →
          (build_master_chat tables n).1 = [rowMismatchMsg])) ∧
    (∀ (tables : List DF) (n : Nat), tables ≠ [] →
      (build_master_case tables n).2.isSome = true ∧
        ((concatDF tables).rows.length ≠ n →
          (build_master_case tables n).1 = [rowMismatchMsg])) ∧
    (∀ files : List FileInfo, rowMismatchMsg ∉ (process_chat_files files).1) ∧
    (∀ files : List FileInfo, rowMismatchMsg ∉ (process_case_files files).1) :=
  ⟨fun tables n h =>
      ⟨build_master_chat_isSome tables n h,
       fun hm => build_master_chat_mismatch_msg tables n h hm⟩,
   fun tables n h =>
      ⟨build_master_case_isSome tables n h,
       fun hm => build_master_case_mismatch_msg tables n h hm⟩,
   process_chat_files_no_mismatch,
   process_case_files_no_mismatch⟩

/-- **C2.**  Row conservation: whenever a master table is returned, its row
count is exactly the sum of the row counts of the qualifying input sheets
(those whose record type belongs to the family being built); non-qualifying
sheets contribute zero rows.  This holds for the chat pipeline and for the
case pipeline. -/
theorem C2_master_table_row_conservation :
    (∀ (files : List FileInfo) (m : DF), (process_chat_files files).2 = some m →
      m.rows.length =
        ((files.filter (fun f => chatTypes.contains f.detected_type)).map
          (fun f => f.data.rows.length)).sum) ∧
    (∀ (files : List FileInfo) (m : DF), (process_case_files files).2 = some m →
      m.rows.length =
        ((files.filter (fun f => f.detected_type = "case_data")).map
          (fun f => f.data.rows.length)).sum) :=
  ⟨process_chat_files_rows, process_case_files_rows⟩

/-! ## The confidence formula (classifier scoring) -/

/-- The number of signature fragments matched by at least one column. -/
def countMatching (frags cols : List String) : Nat :=
  frags.countP (fun frag => anyColContains cols frag)

/-- Did any channel fragment hit the lowercased filename or a column? -/
def channelHit (rule : DetectionRule) (cols : List String) (fl : String) : Bool :=
  rule.channel_indicators.any (fun ch => pyIn ch fl || anyColContains cols ch)

/-- The confidence formula as the specification states it: zero without any
required hit; otherwise the required ratio weighted 0.6 plus the strong ratio
weighted 0.3, plus a flat 0.1 channel bonus awarded at most once, the total
clamped to at most 1. -/
def confidenceSpec (rule : DetectionRule) (cols : List String) (fl : String) : ℚ :=
  if countMatching rule.required cols = 0 then 0
  else
    min
      ((countMatching rule.required cols : ℚ) / rule.required.length * 0.6 +
        (countMatching rule.strong_indicators cols : ℚ) /
          rule.strong_indicators.length * 0.3 +
        (if channelHit rule cols fl then 0.1 else 0))
      1

/-- The classifier's counting loops accumulate exactly `List.countP`. -/
theorem foldl_count_eq_countP {α : Type} (p : α → Bool) (l : List α) :
    ∀ n : Nat, l.foldl (fun n a => if p a then n + 1 else n) n = n + l.countP p := by
  induction l with
  | nil => intro n; simp
  | cons a as ih =>
    intro n
    rw [List.foldl_cons, List.countP_cons]
    by_cases h : p a = true
    · rw [if_pos h, ih, if_pos h]
      omega
    · rw [if_neg h, ih, if_neg h]
      omega

/-- The loop-form confidence of the source equals the closed formula. -/
theorem ruleConfidence_eq_spec (rule : DetectionRule) (cols : List String)
    (fl : String) : ruleConfidence rule cols fl = confidenceSpec rule cols fl := by
  unfold ruleConfidence confidenceSpec countMatching channelHit
  rw [foldl_count_eq_countP, foldl_count_eq_countP]
  simp only [Nat.zero_add]
  split
  · rfl
  · by_cases hc :
      (rule.channel_indicators.any fun ch => pyIn ch fl || anyColContains cols ch) = true
    · rw [if_pos hc, if_pos hc]
    · rw [if_neg hc, if_neg hc, add_zero]

theorem confidenceSpec_nonneg (rule : DetectionRule) (cols : List String)
    (fl : String) : 0 ≤ confidenceSpec rule cols fl := by
  unfold confidenceSpec
  split
  · exact le_refl 0
  · apply le_min _ zero_le_one
    have h1 : (0 : ℚ) ≤ (countMatching rule.required cols : ℚ) /
        rule.required.length * 0.6 := by positivity
    have h2 : (0 : ℚ) ≤ (countMatching rule.strong_indicators cols : ℚ) /
        rule.strong_indicators.length * 0.3 := by positivity
    have h3 : (0 : ℚ) ≤ (if channelHit rule cols fl then (0.1 : ℚ) else 0) := by
      split
      · norm_num
      · exact le_refl 0
    linarith

theorem anyColContains_mono {cols cols' : List String} (h : cols ⊆ cols')
    (frag : String) (hc : anyColContains cols frag = true) :
    anyColContains cols' frag = true := by
  rcases List.any_eq_true.mp hc with ⟨c, hmem, hp⟩
  exact List.any_eq_true.mpr ⟨c, h hmem, hp⟩

theorem countMatching_mono (frags : List String) {cols cols' : List String}
    (h : cols ⊆ cols') : countMatching frags cols ≤ countMatching frags cols' :=
  List.countP_mono_left (fun x _ hx => anyColContains_mono h x hx)

theorem channelHit_mono (rule : DetectionRule) {cols cols' : List String}
    (fl : String) (h : cols ⊆ cols') (hc : channelHit rule cols fl = true) :
    channelHit rule cols' fl = true := by
  rcases List.any_eq_true.mp hc with ⟨ch, hmem, hp⟩
  refine List.any_eq_true.mpr ⟨ch, hmem, ?_⟩
  rcases Bool.or_eq_true_iff.mp hp with hfl | hcol
  · exact Bool.or_eq_true_iff.mpr (Or.inl hfl)
  · exact Bool.or_eq_true_iff.mpr (Or.inr (anyColContains_mono h ch hcol))

theorem ratio_le_ratio {m m' : Nat} (n : ℚ) (hn : 0 ≤ n) (h : m ≤ m') :
    (m : ℚ) / n ≤ (m' : ℚ) / n := by
  rw [div_eq_mul_inv, div_eq_mul_inv]
  exact mul_le_mul_of_nonneg_right (by exact_mod_cast h) (inv_nonneg.mpr hn)

/-- Adding columns can only raise the closed-formula confidence. -/
theorem confidenceSpec_mono (rule : DetectionRule) {cols cols' : List String}
    (fl : String) (h : cols ⊆ cols') :
    confidenceSpec rule cols fl ≤ confidenceSpec rule cols' fl := by
  by_cases h0 : countMatching rule.required cols = 0
  · rw [show confidenceSpec rule cols fl = 0 by unfold confidenceSpec; rw [if_pos h0]]
    exact confidenceSpec_nonneg ..
  · have h0' : countMatching rule.required cols' ≠ 0 := by
      intro hz
      exact h0 (Nat.le_zero.mp (hz ▸ countMatching_mono rule.required h))
    unfold confidenceSpec
    rw [if_neg h0, if_neg h0']
    apply min_le_min _ (le_refl 1)
    have hr : (countMatching rule.required cols : ℚ) / rule.required.length * 0.6 ≤
        (countMatching rule.required cols' : ℚ) / rule.required.length * 0.6 := by
      apply mul_le_mul_of_nonneg_right _ (by norm_num)
      exact ratio_le_ratio _ (by positivity) (countMatching_mono rule.required h)
    have hs : (countMatching rule.strong_indicators cols : ℚ) /
          rule.strong_indicators.length * 0.3 ≤
        (countMatching rule.strong_indicators cols' : ℚ) /
          rule.strong_indicators.length * 0.3 := by
      apply mul_le_mul_of_nonneg_right _ (by norm_num)
      exact ratio_le_ratio _ (by positivity) (countMatching_mono rule.strong_indicators h)
    have hch : (if channelHit rule cols fl then (0.1 : ℚ) else 0) ≤
        (if channelHit rule cols' fl then (0.1 : ℚ) else 0) := by
      by_cases hc : channelHit rule cols fl = true
      · rw [if_pos hc, if_pos (channelHit_mono rule fl h hc)]
      · rw [if_neg hc]
        split
        · norm_num
        · exact le_refl 0
    linarith

/-- **C3.**  For every header set, filename and candidate signature, the
classifier's stored confidence is exactly: 0 when no required fragment is a
substring of any lowercased trimmed header, and otherwise the required ratio
weighted 0.6 plus the strong ratio weighted 0.3, plus a flat 0.1 channel
bonus (awarded at most once when a channel fragment occurs in the lowercased
filename or any header), the total clamped to at most 1. -/
theorem C3_confidence_formula :
    ∀ (headers : List String) (filename : String) (rule : DetectionRule),
      ruleConfidence rule (normalizedColumns headers) (pyLower filename) =
        confidenceSpec rule (normalizedColumns headers) (pyLower filename) :=
  fun headers filename rule =>
    ruleConfidence_eq_spec rule (normalizedColumns headers) (pyLower filename)

/-- **C6.**  Scoring monotonicity: for every candidate record type, keeping
the filename fixed and adding headers never lowers the classifier's
confidence for that candidate. -/
theorem C6_confidence_monotone :
    ∀ (rule : DetectionRule) (hs hs' : List String) (filename : String),
      hs ⊆ hs' →
      ruleConfidence rule (normalizedColumns hs) (pyLower filename) ≤
        ruleConfidence rule (normalizedColumns hs') (pyLower filename) := by
  intro rule hs hs' fn hsub
  rw [ruleConfidence_eq_spec, ruleConfidence_eq_spec]
  exact confidenceSpec_mono rule (pyLower fn) (List.map_subset _ hsub)

/-- **C6, witness.**  The monotonicity theorem applied at the live_chat
signature, the header sets `["Agent"] ⊆ ["Agent", "Chat Key"]` and the empty
filename. -/
theorem C6_confidence_monotone_witness :
    ruleConfidence live_chat_rule (normalizedColumns ["Agent"]) (pyLower "") ≤
      ruleConfidence live_chat_rule (normalizedColumns ["Agent", "Chat Key"])
        (pyLower "") :=
  C6_confidence_monotone live_chat_rule ["Agent"] ["Agent", "Chat Key"] ""
    (by intro a ha; simp at ha; simp [ha])

/-! ## Selection (classifier winner choice) -/

/-- The fold Python's `max(..., key=...)` performs: keep the accumulator on
ties, replace it only on a strictly larger key, so the first maximal element
of `a0 :: l` wins. -/
def foldBest {α : Type} (f : α → ℚ) (a0 : α) (l : List α) : α :=
  l.foldl (fun acc r => if f acc < f r then r else acc) a0

theorem foldBest_cons {α : Type} (f : α → ℚ) (a0 b : α) (bs : List α) :
    foldBest f a0 (b :: bs) = foldBest f (if f a0 < f b then b else a0) bs := rfl

theorem foldBest_mem {α : Type} (f : α → ℚ) (l : List α) :
    ∀ a0, foldBest f a0 l ∈ a0 :: l := by
  induction l with
  | nil => intro a0; simp [foldBest]
  | cons b bs ih =>
    intro a0
    rw [foldBest_cons]
    rcases List.mem_cons.mp (ih (if f a0 < f b then b else a0)) with h | h
    · rw [h]
      split
      · simp
      · simp
    · simp [h]

theorem foldBest_le {α : Type} (f : α → ℚ) (l : List α) :
    ∀ a0, ∀ x ∈ a0 :: l, f x ≤ f (foldBest f a0 l) := by
  induction l with
  | nil =>
    intro a0 x hx
    rcases List.mem_cons.mp hx with h | h
    · rw [h]; exact le_refl _
    · exact absurd h (List.not_mem_nil x)
  | cons b bs ih =>
    intro a0 x hx
    rw [foldBest_cons]
    have hs0 : f a0 ≤ f (if f a0 < f b then b else a0) := by
      split
      · next h => exact le_of_lt h
      · exact le_refl _
    have hsb : f b ≤ f (if f a0 < f b then b else a0) := by
      split
      · exact le_refl _
      · next h => exact le_of_not_lt h
    have hseed := ih (if f a0 < f b then b else a0) _
      (List.mem_cons_self (if f a0 < f b then b else a0) bs)
    rcases List.mem_cons.mp hx with h | h
    · rw [h]; exact le_trans hs0 hseed
    · rcases List.mem_cons.mp h with h' | h'
      · rw [h']; exact le_trans hsb hseed
      · exact ih _ x (List.mem_cons_of_mem _ h')

theorem foldBest_first {α : Type} (f : α → ℚ) (l : List α) :
    ∀ a0, ∃ l₁ l₂, a0 :: l = l₁ ++ foldBest f a0 l :: l₂ ∧
      ∀ x ∈ l₁, f x < f (foldBest f a0 l) := by
  induction l with
  | nil =>
    intro a0
    exact ⟨[], [], rfl, by intro x hx; exact absurd hx (List.not_mem_nil x)⟩
  | cons b bs ih =>
    intro a0
    rw [foldBest_cons]
    by_cases hlt : f a0 < f b
    · rw [if_pos hlt]
      obtain ⟨l₁, l₂, hsplit, hbound⟩ := ih b
      refine ⟨a0 :: l₁, l₂, by rw [List.cons_append, ← hsplit], ?_⟩
      intro x hx
      rcases List.mem_cons.mp hx with h | h
      · rw [h]
        exact lt_of_lt_of_le hlt (foldBest_le f bs b b (List.mem_cons_self b bs))
      · exact hbound x h
    · rw [if_neg hlt]
      obtain ⟨l₁, l₂, hsplit, hbound⟩ := ih a0
      cases l₁ with
      | nil =>
        simp only [List.nil_append] at hsplit
        refine ⟨[], b :: l₂, ?_, by intro x hx; exact absurd hx (List.not_mem_nil x)⟩
        rw [List.nil_append]
        rw [List.cons.injEq] at hsplit
        rw [← hsplit.1, hsplit.2]
      | cons a0' l₁' =>
        rw [List.cons_append, List.cons.injEq] at hsplit
        obtain ⟨ha0, hbs⟩ := hsplit
        have ha0best : f a0 < f (foldBest f a0 bs) := by
          have := hbound a0' (List.mem_cons_self a0' l₁')
          rw [← ha0] at this
          exact this
        refine ⟨a0 :: b :: l₁', l₂, ?_, ?_⟩
        · simp only [List.cons_append, List.cons.injEq, true_and]
          exact hbs
        · intro x hx
          rcases List.mem_cons.mp hx with h | h
          · rw [h]; exact ha0best
          · rcases List.mem_cons.mp h with h' | h'
            · rw [h']
              exact lt_of_le_of_lt (le_of_not_lt hlt) ha0best
            · exact hbound x (List.mem_cons_of_mem _ h')

theorem seed_le_foldl_max (l : List ℚ) : ∀ a : ℚ, a ≤ l.foldl max a := by
  induction l with
  | nil => intro a; exact le_refl a
  | cons b bs ih =>
    intro a
    rw [List.foldl_cons]
    exact le_trans (le_max_left a b) (ih (max a b))

theorem mem_le_foldl_max (l : List ℚ) : ∀ (a : ℚ), ∀ x ∈ l, x ≤ l.foldl max a := by
  induction l with
  | nil => intro a x hx; exact absurd hx (List.not_mem_nil x)
  | cons b bs ih =>
    intro a x hx
    rw [List.foldl_cons]
    rcases List.mem_cons.mp hx with h | h
    · rw [h]
      exact le_trans (le_max_right a b) (seed_le_foldl_max bs (max a b))
    · exact ih (max a b) x h

theorem foldl_max_le (l : List ℚ) : ∀ (a c : ℚ), a ≤ c → (∀ x ∈ l, x ≤ c) →
    l.foldl max a ≤ c := by
  induction l with
  | nil => intro a c ha _; exact ha
  | cons b bs ih =>
    intro a c ha hl
    rw [List.foldl_cons]
    exact ih (max a b) c (max_le ha (hl b (List.mem_cons_self b bs)))
      (fun x hx => hl x (List.mem_cons_of_mem _ hx))

theorem ruleConfidence_nonneg (rule : DetectionRule) (cols : List String)
    (fl : String) : 0 ≤ ruleConfidence rule cols fl := by
  rw [ruleConfidence_eq_spec]
  exact confidenceSpec_nonneg ..

/-- The largest stored confidence over a candidate list. -/
def maxConfidence (rules : List DetectionRule) (cols : List String)
    (fl : String) : ℚ :=
  (rules.map (fun r => ruleConfidence r cols fl)).foldl max 0

/-- The selection step as the specification states it: the first declared
candidate achieving the highest confidence is the winner; when the winner's
confidence is below the winner's own floor the result is "unknown". -/
def selectionSpec (rules : List DetectionRule) (headers : List String)
    (filename : String) : String :=
  let cols := normalizedColumns headers
  let fl := pyLower filename
  match rules.find?
      (fun r => ruleConfidence r cols fl == maxConfidence rules cols fl) with
  | none => "unknown"
  | some w =>
    if ruleConfidence w cols fl < w.min_confidence then "unknown" else w.name

/-- A first maximal element of the list is what `find?` at the maximum
returns. -/
theorem find?_first_max (f : DetectionRule → ℚ) (l₁ l₂ : List DetectionRule)
    (w : DetectionRule) (M : ℚ) (hM : f w = M)
    (hbound : ∀ x ∈ l₁, f x < f w) :
    (l₁ ++ w :: l₂).find? (fun r => f r == M) = some w := by
  induction l₁ with
  | nil =>
    rw [List.nil_append]
    have : (fun r => f r == M) w = true := by
      rw [beq_iff_eq]
      exact hM
    simp [List.find?_cons, this]
  | cons x xs ih =>
    rw [List.cons_append, List.find?_cons_of_neg, ih]
    · intro y hy
      exact hbound y (List.mem_cons_of_mem _ hy)
    · rw [beq_iff_eq]
      have := hbound x (List.mem_cons_self x xs)
      rw [hM] at this
      exact ne_of_lt this

/-- The source's selection step equals the specification's selection. -/
theorem detectFromRules_eq_selectionSpec (rules : List DetectionRule)
    (headers : List String) (filename : String) :
    detectFromRules rules headers filename =
      selectionSpec rules headers filename := by
  cases rules with
  | nil => rfl
  | cons r0 rest =>
    have hmemb := foldBest_mem (fun r =>
      ruleConfidence r (normalizedColumns headers) (pyLower filename)) rest r0
    have hnn : (0 : ℚ) ≤ ruleConfidence
        (foldBest (fun r =>
          ruleConfidence r (normalizedColumns headers) (pyLower filename)) r0 rest)
        (normalizedColumns headers) (pyLower filename) := ruleConfidence_nonneg ..
    have hMle : maxConfidence (r0 :: rest) (normalizedColumns headers)
          (pyLower filename) ≤
        ruleConfidence (foldBest (fun r =>
            ruleConfidence r (normalizedColumns headers) (pyLower filename)) r0 rest)
          (normalizedColumns headers) (pyLower filename) := by
      apply foldl_max_le _ _ _ hnn
      intro x hx
      rcases List.mem_map.mp hx with ⟨r, hr, hxr⟩
      rw [← hxr]
      exact foldBest_le (fun r =>
        ruleConfidence r (normalizedColumns headers) (pyLower filename)) rest r0 r hr
    have hleM : ruleConfidence (foldBest (fun r =>
          ruleConfidence r (normalizedColumns headers) (pyLower filename)) r0 rest)
          (normalizedColumns headers) (pyLower filename) ≤
        maxConfidence (r0 :: rest) (normalizedColumns headers) (pyLower filename) := by
      apply mem_le_foldl_max
      exact List.mem_map.mpr ⟨_, hmemb, rfl⟩
    obtain ⟨l₁, l₂, hsplit, hbound⟩ := foldBest_first (fun r =>
      ruleConfidence r (normalizedColumns headers) (pyLower filename)) rest r0
    have hfind := find?_first_max (fun r =>
        ruleConfidence r (normalizedColumns headers) (pyLower filename)) l₁ l₂
      (foldBest (fun r =>
        ruleConfidence r (normalizedColumns headers) (pyLower filename)) r0 rest)
      (maxConfidence (r0 :: rest) (normalizedColumns headers) (pyLower filename))
      (le_antisymm hleM hMle) hbound
    rw [← hsplit] at hfind
    unfold detectFromRules selectionSpec
    dsimp only
    rw [hfind]
    rfl

/-- **C4.**  For every header set and filename, each of the three classifiers
selects the candidate with the highest confidence, breaking ties by signature
declaration order (the first declared candidate wins), and returns "unknown"
exactly when that winner's confidence is strictly below the winner's own
min_confidence floor; the selection is total, always yielding "unknown" or a
declared type name. -/
theorem C4_selection_first_max_own_floor :
    (∀ (headers : List String) (filename : String),
      detect_chat_data_type headers filename =
        selectionSpec chat_detection_rules headers filename) ∧
    (∀ (headers : List String) (filename : String),
      detect_case_data_type headers filename =
        selectionSpec case_detection_rules headers filename) ∧
    (∀ (headers : List String) (filename : String),
      detect_data_type headers filename =
        selectionSpec dashboard_detection_rules headers filename) ∧
    (∀ (rules : List DetectionRule) (headers : List String) (filename : String),
      detectFromRules rules headers filename = "unknown" ∨
        detectFromRules rules headers filename ∈ rules.map DetectionRule.name) := by
  refine ⟨fun h f => detectFromRules_eq_selectionSpec ..,
    fun h f => detectFromRules_eq_selectionSpec ..,
    fun h f => detectFromRules_eq_selectionSpec .., ?_⟩
  intro rules headers filename
  cases rules with
  | nil => exact Or.inl rfl
  | cons r0 rest =>
    unfold detectFromRules
    dsimp only
    split
    · exact Or.inl rfl
    · refine Or.inr (List.mem_map.mpr ⟨bestRule r0 rest (normalizedColumns headers)
        (pyLower filename), ?_, rfl⟩)
      exact foldBest_mem (fun r =>
        ruleConfidence r (normalizedColumns headers) (pyLower filename)) rest r0

/-! ## The Case Number / Case Owner boundary example -/

/-- The case_data confidence on the bare headers Case Number, Case Owner:
both required fragments hit, no strong fragment hits, and the channel
fragment "case" hits inside the header "case number", giving 0.7. -/
theorem conf_case_data_on_case_headers :
    ruleConfidence case_data_rule
      (normalizedColumns ["Case Number", "Case Owner"]) (pyLower "") = 0.7 := by
  rw [ruleConfidence_eq_spec]
  unfold confidenceSpec
  rw [show countMatching case_data_rule.required
      (normalizedColumns ["Case Number", "Case Owner"]) = 2 from by decide,
    show countMatching case_data_rule.strong_indicators
      (normalizedColumns ["Case Number", "Case Owner"]) = 0 from by decide,
    show channelHit case_data_rule
      (normalizedColumns ["Case Number", "Case Owner"]) (pyLower "") = true from by decide]
  norm_num [case_data_rule, min_def]

/-- Any signature without a required hit on those headers scores zero. -/
theorem conf_zero_on_case_headers (rule : DetectionRule)
    (h : countMatching rule.required
      (normalizedColumns ["Case Number", "Case Owner"]) = 0) :
    ruleConfidence rule
      (normalizedColumns ["Case Number", "Case Owner"]) (pyLower "") = 0 := by
  rw [ruleConfidence_eq_spec]
  unfold confidenceSpec
  rw [h]
  simp

/-- The case_rating signature scores 0.4 on those headers (one required hit
of two, channel bonus). -/
theorem conf_case_rating_on_case_headers :
    ruleConfidence case_rating_rule
      (normalizedColumns ["Case Number", "Case Owner"]) (pyLower "") = 0.4 := by
  rw [ruleConfidence_eq_spec]
  unfold confidenceSpec
  rw [show countMatching case_rating_rule.required
      (normalizedColumns ["Case Number", "Case Owner"]) = 1 from by decide,
    show countMatching case_rating_rule.strong_indicators
      (normalizedColumns ["Case Number", "Case Owner"]) = 0 from by decide,
    show channelHit case_rating_rule
      (normalizedColumns ["Case Number", "Case Owner"]) (pyLower "") = true from by decide]
  norm_num [case_rating_rule, min_def]

/-- **C5.**  On the input whose headers are exactly "Case Number" and
"Case Owner" with an empty filename, the case_data candidate scores 0.7 —
at least 0.6 because both required fragments match — yet strictly below its
own 0.8 floor, so both the case classifier and the dashboard classifier
return "unknown". -/
theorem C5_case_number_owner_headers_unknown :
    ruleConfidence case_data_rule
        (normalizedColumns ["Case Number", "Case Owner"]) (pyLower "") = 0.7 ∧
    (0.6 : ℚ) ≤ ruleConfidence case_data_rule
        (normalizedColumns ["Case Number", "Case Owner"]) (pyLower "") ∧
    ruleConfidence case_data_rule
        (normalizedColumns ["Case Number", "Case Owner"]) (pyLower "") <
      case_data_rule.min_confidence ∧
    detect_case_data_type ["Case Number", "Case Owner"] "" = "unknown" ∧
    detect_data_type ["Case Number", "Case Owner"] "" = "unknown" := by
  have hmc : case_data_rule.min_confidence = 0.8 := rfl
  refine ⟨conf_case_data_on_case_headers, ?_, ?_, ?_, ?_⟩
  · rw [conf_case_data_on_case_headers]
    norm_num
  · rw [conf_case_data_on_case_headers, hmc]
    norm_num
  · unfold detect_case_data_type detectFromRules case_detection_rules bestRule
    dsimp only [List.foldl]
    rw [conf_case_data_on_case_headers, hmc]
    norm_num
  · have h1 : ruleConfidence line_chat_rule
        (normalizedColumns ["Case Number", "Case Owner"]) (pyLower "") = 0 :=
      conf_zero_on_case_headers _ (by decide)
    have h2 : ruleConfidence wechat_chat_rule
        (normalizedColumns ["Case Number", "Case Owner"]) (pyLower "") = 0 :=
      conf_zero_on_case_headers _ (by decide)
    have h3 : ruleConfidence live_chat_rule
        (normalizedColumns ["Case Number", "Case Owner"]) (pyLower "") = 0 :=
      conf_zero_on_case_headers _ (by decide)
    have h5 : ruleConfidence chat_rating_rule
        (normalizedColumns ["Case Number", "Case Owner"]) (pyLower "") = 0 :=
      conf_zero_on_case_headers _ (by decide)
    unfold detect_data_type detectFromRules dashboard_detection_rules bestRule
    dsimp only [List.foldl]
    norm_num [h1, h2, h3, h5, conf_case_data_on_case_headers,
      conf_case_rating_on_case_headers, hmc]

/-! ## The date coercer -/

/-- The date coercer as the specification describes it: missing stays
missing; a number is a day-count serial added to the 1899-12-30 epoch; a
string takes the first success of day-first, month-first, then the
permissive parser, and null when all fail; a datetime is already
normalized. -/
def dateCoercionSpec (permissive : String → Option ℚ) : Cell → Cell
  | Cell.null => Cell.null
  | Cell.num q => Cell.dt ((excelEpochDay : Nat) + q)
  | Cell.str s =>
      match (parseDayFirst s).orElse (fun _ =>
          (parseMonthFirst s).orElse (fun _ => permissive s)) with
      | some z => Cell.dt z
      | none => Cell.null
  | Cell.dt z => Cell.dt z

/-- **C7.**  For every permissive-parser model and every cell:
excel_to_datetime equals the specification's coercer (numeric cells become
epoch-1899-12-30 day serials, strings prefer day-first, then month-first,
then the permissive parse); serial 44197 lands exactly on 2021-01-01; a
string no parser accepts, and a missing value, coerce to null — and the
coercer is a total function, so it never raises. -/
theorem C7_date_coercion_epoch_and_chain :
    (∀ (permissive : String → Option ℚ) (c : Cell),
      excel_to_datetime permissive c = dateCoercionSpec permissive c) ∧
    (∀ permissive : String → Option ℚ,
      excel_to_datetime permissive (Cell.num 44197) =
        Cell.dt ((daysFromCivil 2021 1 1 : Nat) : ℚ)) ∧
    (excelEpochDay + 44197 = daysFromCivil 2021 1 1) ∧
    (∀ (permissive : String → Option ℚ) (s : String),
      parseDayFirst s = none → parseMonthFirst s = none → permissive s = none →
      excel_to_datetime permissive (Cell.str s) = Cell.null) ∧
    (∀ permissive : String → Option ℚ,
      excel_to_datetime permissive Cell.null = Cell.null) := by
  refine ⟨?_, ?_, by decide, ?_, fun _ => rfl⟩
  · intro permissive c
    cases c with
    | null => rfl
    | num q => rfl
    | dt z => rfl
    | str s =>
      unfold excel_to_datetime dateCoercionSpec
      cases h1 : parseDayFirst s with
      | some z => simp [Option.orElse, h1]
      | none =>
        cases h2 : parseMonthFirst s with
        | some z => simp [Option.orElse, h1, h2]
        | none =>
          cases h3 : permissive s with
          | some z => simp [Option.orElse, h1, h2, h3]
          | none => simp [Option.orElse, h1, h2, h3]
  · intro permissive
    show Cell.dt ((excelEpochDay : Nat) + (44197 : ℚ)) = _
    have h1 : excelEpochDay = 693899 := by decide
    have h2 : daysFromCivil 2021 1 1 = 738096 := by decide
    rw [h1, h2]
    simp only [Cell.dt.injEq]
    norm_num
  · intro permissive s h1 h2 h3
    simp only [excel_to_datetime, h1, h2, h3]

/-! ## The text coercer -/

/-- Every output of the text coercer is null or a non-placeholder non-empty
string. -/
theorem textCoerceCell_output (c : Cell) :
    textCoerceCell c = Cell.null ∨
      ∃ s, textCoerceCell c = Cell.str s ∧
        ¬(s = "nan" ∨ s = "NaT" ∨ s = "None") ∧ s ≠ "" := by
  by_cases h : pyStr c = "nan" ∨ pyStr c = "NaT" ∨ pyStr c = "None"
  · left
    simp [textCoerceCell, replaceNullTokens, emptyToNone, h]
  · by_cases he : pyStr c = ""
    · left
      simp [textCoerceCell, replaceNullTokens, emptyToNone, h, he]
    · right
      exact ⟨pyStr c,
        by simp [textCoerceCell, replaceNullTokens, emptyToNone, h, he], h, he⟩

theorem textCoerceCell_idem (c : Cell) :
    textCoerceCell (textCoerceCell c) = textCoerceCell c := by
  rcases textCoerceCell_output c with h | ⟨s, hs, htok, hne⟩
  · rw [h]
    rfl
  · rw [hs]
    simp [textCoerceCell, pyStr, replaceNullTokens, emptyToNone, htok, hne]

/-- **C8, counterexample.**  `"nan"` is a non-empty string, and the text
coercer converts it to null — refuting the claim's conjunct that the coercer
never converts a non-empty string to null. -/
theorem C8_counterexample_nan_nonempty_to_null :
    textCoerceCell (Cell.str "nan") = Cell.null ∧ ("nan" : String) ≠ "" :=
  ⟨rfl, by decide⟩

/-- **C8 (amended).**  The text coercer maps exactly the placeholder tokens
"nan", "NaT", "None", the empty string and already-null cells to null,
preserves every other string exactly, is idempotent on cells and on whole
columns, and never converts a non-empty string *other than the three
placeholder tokens* to null. -/
theorem C8_text_coercion_amended :
    (textCoerceCell Cell.null = Cell.null) ∧
    (textCoerceCell (Cell.str "nan") = Cell.null ∧
      textCoerceCell (Cell.str "NaT") = Cell.null ∧
      textCoerceCell (Cell.str "None") = Cell.null ∧
      textCoerceCell (Cell.str "") = Cell.null) ∧
    (∀ s : String, ¬(s = "nan" ∨ s = "NaT" ∨ s = "None") → s ≠ "" →
      textCoerceCell (Cell.str s) = Cell.str s) ∧
    (∀ c : Cell, textCoerceCell (textCoerceCell c) = textCoerceCell c) ∧
    (∀ cells : List Cell,
      (cells.map textCoerceCell).map textCoerceCell = cells.map textCoerceCell) ∧
    (∀ s : String, ¬(s = "nan" ∨ s = "NaT" ∨ s = "None") → s ≠ "" →
      textCoerceCell (Cell.str s) ≠ Cell.null) := by
  refine ⟨rfl, ⟨rfl, rfl, rfl, rfl⟩, ?_, textCoerceCell_idem, ?_, ?_⟩
  · intro s htok hne
    simp [textCoerceCell, pyStr, replaceNullTokens, emptyToNone, htok, hne]
  · intro cells
    rw [List.map_map]
    apply List.map_congr_left
    intro c _
    exact textCoerceCell_idem c
  · intro s htok hne
    simp [textCoerceCell, pyStr, replaceNullTokens, emptyToNone, htok, hne]

/-! ## Column-mapper priority -/

/-- Splitting a lookup over an appended association list. -/
theorem lookup_append_eq {β : Type} (a : String) (l₁ l₂ : List (String × β)) :
    List.lookup a (l₁ ++ l₂) =
      (List.lookup a l₁).orElse (fun _ => List.lookup a l₂) := by
  induction l₁ with
  | nil => simp [Option.orElse]
  | cons p ps ih =>
    obtain ⟨k, v⟩ := p
    by_cases h : a = k
    · simp [List.lookup, h, Option.orElse]
    · have hb : (a == k) = false := beq_eq_false_iff_ne.mpr h
      simp only [List.cons_append, List.lookup, hb]
      exact ih

/-- The mapping fold started from any accumulator appends to it. -/
theorem buildMapping_foldl_append (headers : List String)
    (pats : List (String × List String)) :
    ∀ acc : List (String × String),
      pats.foldl
        (fun acc tp =>
          match resolveField headers tp.2 with
          | some col => acc ++ [(tp.1, col)]
          | none => acc) acc =
      acc ++ buildMapping headers pats := by
  induction pats with
  | nil => intro acc; simp [buildMapping]
  | cons tp rest ih =>
    intro acc
    rw [List.foldl_cons, show buildMapping headers (tp :: rest) =
      List.foldl _ (match resolveField headers tp.2 with
        | some col => [] ++ [(tp.1, col)]
        | none => []) rest from rfl]
    cases hres : resolveField headers tp.2 with
    | some col =>
      rw [ih (acc ++ [(tp.1, col)]), ih ([] ++ [(tp.1, col)])]
      simp [List.append_assoc]
    | none =>
      rw [ih acc, ih []]
      simp

/-- A field name absent from the pattern table is absent from the built
mapping. -/
theorem lookup_buildMapping_none (headers : List String)
    (pats : List (String × List String)) (target : String)
    (h : target ∉ pats.map Prod.fst) :
    List.lookup target (buildMapping headers pats) = none := by
  induction pats with
  | nil => rfl
  | cons tp rest ih =>
    have htp : target ≠ tp.1 := by
      intro he
      exact h (by rw [List.map_cons]; exact he ▸ List.mem_cons_self _ _)
    have hrest : target ∉ rest.map Prod.fst := by
      intro hm
      exact h (by rw [List.map_cons]; exact List.mem_cons_of_mem _ hm)
    show List.lookup target (List.foldl _ [] (tp :: rest)) = none
    rw [List.foldl_cons, buildMapping_foldl_append]
    cases hres : resolveField headers tp.2 with
    | some col =>
      have hb : (target == tp.1) = false := beq_eq_false_iff_ne.mpr htp
      dsimp only
      simp only [List.nil_append, List.lookup, hb]
      exact ih hrest
    | none =>
      dsimp only
      simp only [List.nil_append]
      exact ih hrest

/-- Looking a canonical field up in the built mapping gives exactly what the
ordered pattern list resolves to. -/
theorem lookup_buildMapping (headers : List String)
    (pats : List (String × List String)) (target : String)
    (patterns : List String) (hnd : (pats.map Prod.fst).Nodup)
    (hmem : (target, patterns) ∈ pats) :
    List.lookup target (buildMapping headers pats) =
      resolveField headers patterns := by
  induction pats with
  | nil => exact absurd hmem (List.not_mem_nil _)
  | cons tp rest ih =>
    rw [List.map_cons, List.nodup_cons] at hnd
    show List.lookup target (List.foldl _ [] (tp :: rest)) = _
    rw [List.foldl_cons, buildMapping_foldl_append]
    rcases List.mem_cons.mp hmem with hhead | htail
    · have htgt : tp.1 = target := by rw [← hhead]
      have hpat : tp.2 = patterns := by rw [← hhead]
      have hnotin : target ∉ rest.map Prod.fst := htgt ▸ hnd.1
      cases hres : resolveField headers tp.2 with
      | some col =>
        have hb : (target == tp.1) = true := beq_iff_eq.mpr htgt.symm
        dsimp only
        simp only [List.nil_append, List.lookup, hb]
        rw [← hpat, hres]
      | none =>
        dsimp only
        simp only [List.nil_append]
        rw [lookup_buildMapping_none headers rest target hnotin, ← hpat, hres]
    · have htgt : target ≠ tp.1 := by
        intro he
        exact hnd.1 (List.mem_map.mpr ⟨(target, patterns), htail, he⟩)
      cases hres : resolveField headers tp.2 with
      | some col =>
        have hb : (target == tp.1) = false := beq_eq_false_iff_ne.mpr htgt
        dsimp only
        simp only [List.nil_append, List.lookup, hb]
        exact ih hnd.2 htail
      | none =>
        dsimp only
        simp only [List.nil_append]
        exact ih hnd.2 htail

/-- Once a pattern has a matching column, the patterns after it are never
consulted: the resolution over `ps₁ ++ p :: ps₂` equals the resolution over
`ps₁ ++ [p]` alone. -/
theorem resolveField_stops_at_first_match (headers : List String)
    (ps₁ : List String) (p : String) (ps₂ : List String) (c : String)
    (h : findMatchingColumn headers p = some c) :
    resolveField headers (ps₁ ++ p :: ps₂) = resolveField headers (ps₁ ++ [p]) := by
  unfold resolveField
  induction ps₁ with
  | nil =>
    rw [List.nil_append, List.nil_append, List.findSome?_cons, List.findSome?_cons, h]
  | cons x xs ih =>
    rw [List.cons_append, List.cons_append, List.findSome?_cons, List.findSome?_cons]
    cases hfx : findMatchingColumn headers x with
    | some d => rfl
    | none => exact ih

/-- Each canonical field of the chat column mapping is bound to exactly what
its ordered pattern list resolves to. -/
theorem smart_chat_mapping_lookup (headers : List String) (dt target : String)
    (patterns : List String) (hmem : (target, patterns) ∈ mapping_patterns) :
    List.lookup target (smart_chat_column_mapping headers dt) =
      resolveField headers patterns := by
  have hnd : (mapping_patterns.map Prod.fst).Nodup := by decide
  have hch : target ≠ "Channel" := by
    have hmm : target ∈ mapping_patterns.map Prod.fst :=
      List.mem_map.mpr ⟨_, hmem, rfl⟩
    intro he
    rw [he] at hmm
    revert hmm
    decide
  unfold smart_chat_column_mapping
  dsimp only
  cases hlk : List.lookup dt channel_map with
  | some ch =>
    rw [lookup_append_eq,
      lookup_buildMapping headers mapping_patterns target patterns hnd hmem]
    cases hres : resolveField headers patterns with
    | some col => rfl
    | none =>
      simp [Option.orElse, List.lookup, beq_eq_false_iff_ne.mpr hch]
  | none =>
    exact lookup_buildMapping headers mapping_patterns target patterns hnd hmem

/-- **C9.**  The column mapper tries each field's candidate patterns in
declared priority order and binds the field to the first pattern that
matches a header, never consulting later patterns once a match is found; in
particular, with both "Agent" and "Owner: Full Name" present for live_chat,
the canonical Agent field is bound via the higher-priority
"owner: full name" pattern to "Owner: Full Name" — in the chat mapper and in
the dashboard mapper alike. -/
theorem C9_column_mapping_priority :
    (∀ (headers ps₁ : List String) (p : String) (ps₂ : List String) (c : String),
      findMatchingColumn headers p = some c →
      resolveField headers (ps₁ ++ p :: ps₂) = resolveField headers (ps₁ ++ [p])) ∧
    (∀ (headers : List String) (dt target : String) (patterns : List String),
      (target, patterns) ∈ mapping_patterns →
      List.lookup target (smart_chat_column_mapping headers dt) =
        resolveField headers patterns) ∧
    (List.lookup "Agent"
        (smart_chat_column_mapping ["Agent", "Owner: Full Name"] "live_chat") =
      some "Owner: Full Name") ∧
    (List.lookup "Agent"
        (smart_column_mapping ["Agent", "Owner: Full Name"] "live_chat") =
      some "Owner: Full Name") :=
  ⟨fun headers ps₁ p ps₂ c h =>
      resolveField_stops_at_first_match headers ps₁ p ps₂ c h,
   fun headers dt target patterns hmem =>
      smart_chat_mapping_lookup headers dt target patterns hmem,
   by decide, by decide⟩

/-! ## WeChat rating derivation -/

/-- The Rating cell of a transformed WeChat row is the fixed function of
that row's Outcome cell. -/
theorem wechatRatingRow_rating (r : Row) :
    getCell (wechatRatingRow r) "Rating" =
      outcomeToRatingCell (getCell r "Outcome") := rfl

/-- **C10.**  For every WeChat rating sheet the output Rating column is
derived solely from the source Outcome column by the fixed mapping
Positive ↦ 5 and Negative ↦ 1, every other or missing Outcome value giving a
null Rating; the Rating of a row depends on nothing but its Outcome cell, so
no source rating column is read. -/
theorem C10_wechat_rating_from_outcome_only :
    (∀ df : DF,
      (process_wechat_ratings df).rows.map (fun r => getCell r "Rating") =
        df.rows.map (fun r => outcomeToRatingCell (getCell r "Outcome"))) ∧
    (outcomeToRatingCell (Cell.str "Positive") = Cell.num 5) ∧
    (outcomeToRatingCell (Cell.str "Negative") = Cell.num 1) ∧
    (∀ c : Cell, c ≠ Cell.str "Positive" → c ≠ Cell.str "Negative" →
      outcomeToRatingCell c = Cell.null) ∧
    (∀ r r' : Row, getCell r "Outcome" = getCell r' "Outcome" →
      getCell (wechatRatingRow r) "Rating" =
        getCell (wechatRatingRow r') "Rating") := by
  refine ⟨?_, rfl, rfl, ?_, ?_⟩
  · intro df
    unfold process_wechat_ratings
    dsimp only
    rw [List.map_map]
    apply List.map_congr_left
    intro r _
    exact wechatRatingRow_rating r
  · intro c h1 h2
    unfold outcomeToRatingCell
    rw [if_neg h1, if_neg h2]
  · intro r r' h
    rw [wechatRatingRow_rating, wechatRatingRow_rating, h]

end CS
